import Mathlib

/-!
Shallow embedding of `src/process_audio.py`: a batch pipeline that uploads
local mp3 files to object storage, runs an asynchronous transcription job
(polling until a terminal status), translates the transcript, synthesizes
speech, and writes three output artifacts back to storage.

External services (S3, Transcribe, Translate, Polly, the transcript-URI
fetch) are modelled as an `Oracles` record of outcome functions; each
embedded function returns the list of observable events it performs (calls,
writes, log lines, sleeps) together with its result.  Exceptions are
modelled explicitly: an outcome the Python code does not catch is returned
as a `raised`/`otherError` constructor that propagates to the caller.
-/

namespace ProcessAudio

/-- Module-level configuration: `S3_BUCKET_NAME` (required) and
`ENVIRONMENT` (default `"beta"`). -/
structure Config where
  bucket : String
  environment : String
deriving DecidableEq

/-- `TARGET_LANGUAGE = "es"` (fixed constant in the source). -/
def TARGET_LANGUAGE : String := "es"

/-- `SOURCE_LANGUAGE = "en"` (fixed constant in the source). -/
def SOURCE_LANGUAGE : String := "en"

/-- `INPUT_FOLDER = "audio_inputs/"` (fixed constant in the source). -/
def INPUT_FOLDER : String := "audio_inputs/"

/-- Startup configuration check: `os.environ.get` may yield no value, and
the Python check `if not S3_BUCKET_NAME` also rejects the empty string; on failure
the module raises `ValueError` before any work. -/
def loadConfig (envVar : String → Option String) : Except String Config :=
  match envVar "S3_BUCKET_NAME" with
  | none => .error "Missing env var S3_BUCKET_NAME. Set it before running."
  | some b =>
    if b = "" then .error "Missing env var S3_BUCKET_NAME. Set it before running."
    else .ok ⟨b, (envVar "ENVIRONMENT").getD "beta"⟩

/-! ### Path helpers (`os.path.basename`, `os.path.splitext`) -/

/-- Characters after the last `/` of a character list. -/
def basenameChars (cs : List Char) : List Char :=
  (cs.reverse.takeWhile (fun c => c ≠ '/')).reverse

/-- `os.path.basename`: the substring after the last `/`. -/
def basename (p : String) : String :=
  ⟨basenameChars p.data⟩

/-- Index of the last `.` in a character list, if any. -/
def lastDotIdx (cs : List Char) : Option Nat :=
  match cs.reverse.indexOf? '.' with
  | none => none
  | some r => some (cs.length - 1 - r)

/-- The stem of `os.path.splitext` on a slash-free name: split at the last
`.` unless every character before it is itself a `.` (Python treats a
leading-dot file like `.mp3` as having no extension). -/
def splitextStem (name : String) : String :=
  let cs := name.data
  match lastDotIdx cs with
  | none => name
  | some i => if (cs.take i).any (fun c => c ≠ '.') then ⟨cs.take i⟩ else name

/-! ### Job-name sanitization (`re.sub(r"[^A-Za-z0-9_-]", "-", base)`) -/

/-- Characters admitted by the Transcribe job-name character class
`[A-Za-z0-9_-]`. -/
def isJobNameChar (c : Char) : Bool :=
  c.isAlphanum || c = '_' || c = '-'

/-- The per-character action of `re.sub(r"[^A-Za-z0-9_-]", "-", ·)`. -/
def sanitizeChar (c : Char) : Char :=
  if isJobNameChar c then c else '-'

/-- `re.sub(r"[^A-Za-z0-9_-]", "-", s)`: replace every character outside
`[A-Za-z0-9_-]` with `-`. -/
def sanitize (s : String) : String :=
  ⟨s.data.map sanitizeChar⟩

/-- Whether a string matches `^[A-Za-z0-9_-]+$` (nonempty, all characters
in the class). -/
def matchesJobCharsetPlus (s : String) : Bool :=
  !s.data.isEmpty && s.data.all isJobNameChar

/-- The generated Transcribe job name:
`f"job-{safe_base}-{int(time.time())}"`. -/
def transcribeJobName (base : String) (ts : Nat) : String :=
  "job-" ++ sanitize base ++ "-" ++ Nat.repr ts

/-! ### Transcription job statuses and views -/

/-- Transcription job status as observed by the poll loop. -/
inductive TStatus where
  | IN_PROGRESS
  | COMPLETED
  | FAILED
deriving DecidableEq

/-- The terminal check of the loop: `status in ["COMPLETED", "FAILED"]`. -/
def isTerminal : TStatus → Bool
  | .COMPLETED => true
  | .FAILED => true
  | .IN_PROGRESS => false

/-- Rendering of a status for the waiting log line. -/
def statusText : TStatus → String
  | .IN_PROGRESS => "IN_PROGRESS"
  | .COMPLETED => "COMPLETED"
  | .FAILED => "FAILED"

/-- One `get_transcription_job` response: status, optional
`FailureReason`, optional `Transcript.TranscriptFileUri`. -/
structure TranscriptionJobView where
  status : TStatus
  failureReason : Option String
  transcriptFileUri : Option String
deriving DecidableEq

/-- One element of `results.transcripts` in the transcript JSON. -/
structure TranscriptAlt where
  transcript : String
deriving DecidableEq

/-- The `results` object of the transcript JSON. -/
structure TranscriptResults where
  transcripts : List TranscriptAlt
deriving DecidableEq

/-- The transcript JSON document
`{ "results": { "transcripts": [ { "transcript": ... }, ... ] } }`. -/
structure TranscriptDoc where
  results : TranscriptResults
deriving DecidableEq

/-! ### Outcomes of external calls -/

/-- Outcome of `s3_client.upload_file`: success, a `ClientError`
(caught), or any other exception (uncaught, propagates). -/
inductive UploadOutcome where
  | ok
  | clientError (msg : String)
  | otherError (msg : String)
deriving DecidableEq

/-- Outcome of `s3_client.put_object`: success, a `ClientError`
(caught by the results-upload handler), or any other exception
(uncaught, propagates). -/
inductive PutOutcome where
  | ok
  | clientError (msg : String)
  | otherError (msg : String)
deriving DecidableEq

/-- Outcome of `transcribe_client.start_transcription_job`; every
exception is caught by the source. -/
inductive StartJobOutcome where
  | ok
  | error (msg : String)
deriving DecidableEq

/-- Outcome of one `transcribe_client.get_transcription_job` call: a job
view, or an exception (uncaught by the source). -/
inductive QueryOutcome where
  | view (v : TranscriptionJobView)
  | raise (msg : String)
deriving DecidableEq

/-- Outcome of `translate_client.translate_text`: translated text or an
exception. -/
inductive TranslateOutcome where
  | ok (translated : String)
  | raise (msg : String)
deriving DecidableEq

/-- Outcome of one `polly_client.synthesize_speech` call: audio bytes, the
distinguishable `InvalidParameterValueException`, or any other
exception. -/
inductive SynthOutcome where
  | ok (audio : String)
  | invalidParameterValue
  | raise (msg : String)
deriving DecidableEq

/-- The external world: outcomes of every service interaction, plus the
`int(time.time())` value read when the job name is generated.  `query i`
is the `i`-th status query for the transcription job of the item; `fetch uri`
is the transcript download-and-parse (an `error` covers network and JSON
failures, which the source catches together). -/
structure Oracles where
  upload : String → String → UploadOutcome
  startJob : String → String → StartJobOutcome
  query : Nat → QueryOutcome
  fetch : String → Except String TranscriptDoc
  translate : String → TranslateOutcome
  polly : String → String → String → SynthOutcome
  put : String → PutOutcome
  time : Nat

/-! ### Observable events -/

/-- Observable effects of a run, in order: successful storage writes,
service-call attempts, log lines, and sleeps. -/
inductive Event where
  | uploadFile (path : String) (key : String)
  | putObject (key : String) (body : String) (contentType : String)
  | startJobCall (jobName : String) (uri : String)
  | queryCall (i : Nat)
  | sleep (seconds : Nat)
  | translateCall (text : String) (target : String)
  | pollyCall (voice : String) (engine : String) (text : String)
  | logInfo (msg : String)
  | logError (msg : String)
deriving DecidableEq

/-- Keys actually written to object storage in a trace (successful
`upload_file` and `put_object` calls). -/
def writeKeyOf : Event → Option String
  | .uploadFile _ k => some k
  | .putObject k _ _ => some k
  | _ => none

/-- All object-storage keys written in a trace, in order. -/
def writtenKeys (evs : List Event) : List String :=
  evs.filterMap writeKeyOf

/-- Whether an event is a call to the translation service. -/
def isTranslateCall : Event → Bool
  | .translateCall _ _ => true
  | _ => false

/-- Whether an event is a call to the speech-synthesis service. -/
def isPollyCall : Event → Bool
  | .pollyCall _ _ _ => true
  | _ => false

/-- Whether an event is a transcription job submission attempt. -/
def isStartJobCall : Event → Bool
  | .startJobCall _ _ => true
  | _ => false

/-- Whether an event is a job-status query. -/
def isQueryCall : Event → Bool
  | .queryCall _ => true
  | _ => false

/-- Whether an event is a sleep. -/
def isSleepEvent : Event → Bool
  | .sleep _ => true
  | _ => false

/-! ### The pipeline functions -/

/-- `upload_to_s3(file_path, object_name)`: upload, log and return `True`;
on `ClientError` log and return `False`; any other exception
propagates (`Except.error`). -/
def upload_to_s3 (cfg : Config) (o : Oracles) (file_path object_name : String) :
    List Event × Except String Bool :=
  match o.upload file_path object_name with
  | .ok =>
    ([.uploadFile file_path object_name,
      .logInfo ("Uploaded " ++ file_path ++ " to s3://" ++ cfg.bucket ++ "/" ++ object_name)],
     .ok true)
  | .clientError e => ([.logError ("S3 Upload Error: " ++ e)], .ok false)
  | .otherError e => ([], .error e)

/-- `start_transcription_job(job_name, s3_uri)`: submit and log; every
exception is caught and logged, so the function always returns (no
result value is produced for the caller). -/
def start_transcription_job (o : Oracles) (job_name s3_uri : String) :
    List Event :=
  match o.startJob job_name s3_uri with
  | .ok => [.startJobCall job_name s3_uri, .logInfo ("Transcription job " ++ job_name ++ " started.")]
  | .error e => [.startJobCall job_name s3_uri, .logError ("Error starting transcription job: " ++ e)]

/-- Result of the fuel-bounded poll loop: the first terminal observation,
an exception raised by the status query (uncaught in the source), or fuel
exhaustion (standing in for a still-running unbounded loop). -/
inductive PollRes where
  | terminal (i : Nat) (v : TranscriptionJobView)
  | raised (msg : String)
  | running
deriving DecidableEq

/-- The `while True` poll loop of `get_transcription_result`, observing
queries `i, i+1, ...` with `fuel` remaining iterations: query the status;
stop on `COMPLETED`/`FAILED`; otherwise log, sleep 30 seconds and
re-query.  The source has no fuel: exhaustion (`.running`) models an
execution still inside the loop. -/
def pollLoop (query : Nat → QueryOutcome) : Nat → Nat → List Event × PollRes
  | 0, _ => ([], .running)
  | fuel + 1, i =>
    match query i with
    | .raise e => ([.queryCall i], .raised e)
    | .view v =>
      if isTerminal v.status then ([.queryCall i], .terminal i v)
      else
        let rest := pollLoop query fuel (i + 1)
        (.queryCall i ::
           .logInfo ("Transcription job status: " ++ statusText v.status ++ ". Waiting 30s...") ::
           .sleep 30 :: rest.1,
         rest.2)

/-- Result of `get_transcription_result`: the Python return value
(`str | None`), an uncaught exception, or a still-polling loop. -/
inductive GtrRes where
  | returned (r : Option String)
  | raised (msg : String)
  | stillPolling
deriving DecidableEq

/-- `get_transcription_result(job_name)`: poll to a terminal status; on
`FAILED` log the `FailureReason` (default `"Unknown error"`) and return
`None`; on completion fetch and parse the transcript URI, returning
`results.transcripts[0].transcript`; a missing URI, a fetch/parse error,
or an empty transcript list is logged and yields `None`. -/
def get_transcription_result (o : Oracles) (fuel : Nat) : List Event × GtrRes :=
  match pollLoop o.query fuel 0 with
  | (evs, .running) => (evs, .stillPolling)
  | (evs, .raised e) => (evs, .raised e)
  | (evs, .terminal _ v) =>
    if v.status = .FAILED then
      (evs ++ [.logError ("Transcription job failed: " ++ v.failureReason.getD "Unknown error")],
       .returned none)
    else
      match v.transcriptFileUri with
      | none => (evs ++ [.logError "Transcript URL not found in completed job."], .returned none)
      | some uri =>
        match o.fetch uri with
        | .error e => (evs ++ [.logError ("Error reading transcript JSON: " ++ e)], .returned none)
        | .ok doc =>
          match doc.results.transcripts.head? with
          | none =>
            (evs ++ [.logError "Error reading transcript JSON: list index out of range"],
             .returned none)
          | some alt => (evs, .returned (some alt.transcript))

/-- `translate_text(text, target_language)`: one synchronous call; a
service exception propagates to the caller. -/
def translate_text (o : Oracles) (text target_language : String) :
    List Event × Except String String :=
  match o.translate text with
  | .ok t => ([.translateCall text target_language], .ok t)
  | .raise e => ([.translateCall text target_language], .error e)

/-- The voice chosen by `synthesize_speech`:
`"Lupe" if target_language == "es" else "Joanna"`. -/
def selectVoice (target_language : String) : String :=
  if target_language = "es" then "Lupe" else "Joanna"

/-- `synthesize_speech(text, target_language)`: try the neural engine; on
`InvalidParameterValueException` retry once with the standard engine; any
other failure (and any failure of the retry) propagates. -/
def synthesize_speech (o : Oracles) (text target_language : String) :
    List Event × Except String String :=
  let voice_id := selectVoice target_language
  match o.polly voice_id "neural" text with
  | .ok audio => ([.pollyCall voice_id "neural" text], .ok audio)
  | .raise e => ([.pollyCall voice_id "neural" text], .error e)
  | .invalidParameterValue =>
    match o.polly voice_id "standard" text with
    | .ok audio =>
      ([.pollyCall voice_id "neural" text, .pollyCall voice_id "standard" text], .ok audio)
    | .raise e =>
      ([.pollyCall voice_id "neural" text, .pollyCall voice_id "standard" text], .error e)
    | .invalidParameterValue =>
      ([.pollyCall voice_id "neural" text, .pollyCall voice_id "standard" text],
       .error "InvalidParameterValueException")

/-- The Python `if not transcript_text:` guard on a `str | None` value:
true for `None` and for the empty string. -/
def pyStrFalsy : Option String → Bool
  | none => true
  | some s => s = ""

/-- Result of the final results-upload `try` block: all three objects
written, a `ClientError` caught and logged, or another exception that
escapes the handler. -/
inductive PutsRes where
  | ok
  | caught (msg : String)
  | raisedOther (msg : String)
deriving DecidableEq

/-- The final `try` block of `process_file`: put transcript, translation
and audio under their deterministic keys; a `ClientError` anywhere in the
block is caught and logged, any other exception escapes. -/
def upload_results (cfg : Config) (o : Oracles)
    (filename base transcript_text translated_text audio_bytes : String) :
    List Event × PutsRes :=
  let k1 := cfg.environment ++ "/transcripts/" ++ base ++ ".txt"
  let k2 := cfg.environment ++ "/translations/" ++ base ++ "_" ++ TARGET_LANGUAGE ++ ".txt"
  let k3 := cfg.environment ++ "/audio-outputs/" ++ base ++ "_" ++ TARGET_LANGUAGE ++ ".mp3"
  match o.put k1 with
  | .otherError e => ([], .raisedOther e)
  | .clientError e => ([.logError ("Error uploading results to S3: " ++ e)], .caught e)
  | .ok =>
    let ev1 := Event.putObject k1 transcript_text "text/plain; charset=utf-8"
    match o.put k2 with
    | .otherError e => ([ev1], .raisedOther e)
    | .clientError e => ([ev1, .logError ("Error uploading results to S3: " ++ e)], .caught e)
    | .ok =>
      let ev2 := Event.putObject k2 translated_text "text/plain; charset=utf-8"
      match o.put k3 with
      | .otherError e => ([ev1, ev2], .raisedOther e)
      | .clientError e => ([ev1, ev2, .logError ("Error uploading results to S3: " ++ e)], .caught e)
      | .ok =>
        ([ev1, ev2, Event.putObject k3 audio_bytes "audio/mpeg",
          .logInfo ("Successfully processed " ++ filename)], .ok)

/-- Result of `process_file` for one item: returned normally (including
all its early returns), escaped with an uncaught exception, or still
inside the unbounded poll loop. -/
inductive PFRes where
  | done
  | raised (msg : String)
  | stillPolling
deriving DecidableEq

/-- `process_file(file_path)`: derive names and keys, upload the input
(aborting the item if the upload reports failure), submit the
transcription job, poll for the transcript, and — unless the transcript
is falsy — translate, synthesize (exceptions there are caught and abandon
the item) and upload the three results. -/
def process_file (cfg : Config) (o : Oracles) (fuel : Nat) (file_path : String) :
    List Event × PFRes :=
  let filename := basename file_path
  let base := splitextStem filename
  let s3_key_audio_input := cfg.environment ++ "/audio_inputs/" ++ filename
  let transcribe_job_name := transcribeJobName base o.time
  match upload_to_s3 cfg o file_path s3_key_audio_input with
  | (evs, .error e) => (evs, .raised e)
  | (evs, .ok false) => (evs, .done)
  | (evs, .ok true) =>
    let s3_uri_input := "s3://" ++ cfg.bucket ++ "/" ++ s3_key_audio_input
    let evs1 := evs ++ start_transcription_job o transcribe_job_name s3_uri_input
    match get_transcription_result o fuel with
    | (evs2, .stillPolling) => (evs1 ++ evs2, .stillPolling)
    | (evs2, .raised e) => (evs1 ++ evs2, .raised e)
    | (evs2, .returned r) =>
      let evsP := evs1 ++ evs2
      if pyStrFalsy r then
        (evsP ++ [.logError "Processing failed at transcription stage."], .done)
      else
        let transcript_text := r.getD ""
        match translate_text o transcript_text TARGET_LANGUAGE with
        | (evs3, .error e) =>
          (evsP ++ evs3 ++ [.logError ("Translate/Polly stage failed: " ++ e)], .done)
        | (evs3, .ok translated_text) =>
          match synthesize_speech o translated_text TARGET_LANGUAGE with
          | (evs4, .error e) =>
            (evsP ++ evs3 ++ evs4 ++ [.logError ("Translate/Polly stage failed: " ++ e)], .done)
          | (evs4, .ok audio_bytes) =>
            match upload_results cfg o filename base transcript_text translated_text audio_bytes with
            | (evs5, .raisedOther e) => (evsP ++ evs3 ++ evs4 ++ evs5, .raised e)
            | (evs5, _) => (evsP ++ evs3 ++ evs4 ++ evs5, .done)

/-- Result of a whole batch run: finished, crashed on an uncaught
exception, or stuck in an unbounded poll. -/
inductive BatchRes where
  | finished
  | crashed (msg : String)
  | polling
deriving DecidableEq

/-- The `__main__` loop over the selected files: `process_file` per item,
sequentially; an uncaught exception aborts the whole batch. -/
def runBatch (cfg : Config) (os : String → Oracles) (fuel : Nat) :
    List String → List Event × BatchRes
  | [] => ([], .finished)
  | p :: ps =>
    match process_file cfg (os p) fuel p with
    | (evs, .raised e) => (evs, .crashed e)
    | (evs, .stillPolling) => (evs, .polling)
    | (evs, .done) =>
      let rest := runBatch cfg os fuel ps
      (evs ++ rest.1, rest.2)

/-- The `__main__` file filter: `fname.lower().endswith(".mp3")`. -/
def isMp3Name (fname : String) : Bool :=
  ".mp3".data.isSuffixOf (fname.data.map Char.toLower)

/-- Events that the poll loop itself can produce: status queries, waiting
log lines and sleeps. -/
def isPollEvent : Event → Bool
  | .queryCall _ => true
  | .logInfo _ => true
  | .sleep _ => true
  | _ => false

/-! ### Scenario fixtures -/

/-- An all-success collaborator world; scenarios override individual
fields with record updates. -/
def baseOracles : Oracles where
  upload := fun _ _ => .ok
  startJob := fun _ _ => .ok
  query := fun _ => .view ⟨.COMPLETED, none, some "https://transcript.json"⟩
  fetch := fun _ => .ok ⟨⟨[⟨"hello world"⟩]⟩⟩
  translate := fun _ => .ok "hola mundo"
  polly := fun _ _ _ => .ok "AUDIOBYTES"
  put := fun _ => .ok
  time := 0

/-- The end-to-end scenario world for `greeting.mp3` with an arbitrary
job-name timestamp. -/
def greetingOracles (ts : Nat) : Oracles :=
  { baseOracles with time := ts }

/-- A world in which the job submission fails and every status query then
raises (the service does not know the job). -/
def crashOracles : Oracles :=
  { baseOracles with
      startJob := fun _ _ => .error "AccessDeniedException"
      query := fun _ => .raise "BadRequestException: job not found" }

/-- The anchored pattern `^job-greeting-\d+$`: the literal prefix
`job-greeting-` followed by one or more decimal digits. -/
def MatchesJobGreeting (s : String) : Prop :=
  ∃ ds : List Char, ds ≠ [] ∧ ds.all Char.isDigit = true ∧ s = "job-greeting-" ++ ⟨ds⟩

/-! ## Helper lemmas -/

theorem sanitizeChar_isJobNameChar (c : Char) : isJobNameChar (sanitizeChar c) = true := by
  unfold sanitizeChar
  by_cases h : isJobNameChar c = true
  · simp [h]
  · simp [h]
    decide

theorem sanitizeChar_idem (c : Char) : sanitizeChar (sanitizeChar c) = sanitizeChar c := by
  unfold sanitizeChar
  by_cases h : isJobNameChar c = true
  · simp [h]
  · simp [h]

theorem sanitize_data (s : String) : (sanitize s).data = s.data.map sanitizeChar := rfl

/-! ## Claim theorems -/

/-- Claim C2, counterexample: on the empty input string the sanitizer
returns the empty string, which does not match `^[A-Za-z0-9_-]+$`. -/
theorem sanitize_empty_counterexample :
    sanitize "" = "" ∧ matchesJobCharsetPlus (sanitize "") = false := by
  decide

/-- Claim C2 (amended): the sanitizer is total and idempotent, every
character of its output lies in `[A-Za-z0-9_-]`, and for every nonempty
input the output matches `^[A-Za-z0-9_-]+$`; on the empty input the
output is the empty string, which matches only `^[A-Za-z0-9_-]*$`. -/
theorem sanitize_idempotent_and_charset :
    (∀ s : String, sanitize (sanitize s) = sanitize s) ∧
    (∀ s : String, (sanitize s).data.all isJobNameChar = true) ∧
    (∀ s : String, s ≠ "" → matchesJobCharsetPlus (sanitize s) = true) := by
  refine ⟨fun s => ?_, fun s => ?_, fun s hs => ?_⟩
  · apply String.ext
    rw [sanitize_data, sanitize_data, List.map_map]
    exact List.map_congr_left fun c _ => sanitizeChar_idem c
  · rw [sanitize_data, List.all_eq_true]
    intro c hc
    rcases List.mem_map.mp hc with ⟨a, _, rfl⟩
    exact sanitizeChar_isJobNameChar a
  · have hdata : s.data ≠ [] := fun h => hs (String.ext h)
    unfold matchesJobCharsetPlus
    rw [Bool.and_eq_true]
    constructor
    · rw [sanitize_data]
      simp only [Bool.not_eq_true']
      rw [List.isEmpty_eq_false]
      simpa using hdata
    · rw [sanitize_data, List.all_eq_true]
      intro c hc
      rcases List.mem_map.mp hc with ⟨a, _, rfl⟩
      exact sanitizeChar_isJobNameChar a

/-- Claim C2, witness: the amended theorem evaluated on a concrete dirty
input. -/
theorem sanitize_idempotent_and_charset_witness :
    sanitize (sanitize "my file!.v2") = sanitize "my file!.v2" ∧
    matchesJobCharsetPlus (sanitize "my file!.v2") = true :=
  ⟨sanitize_idempotent_and_charset.1 "my file!.v2",
   sanitize_idempotent_and_charset.2.2 "my file!.v2" (by decide)⟩

/-- Claim C6: voice selection in `synthesize_speech` is the fixed total
mapping: target language `"es"` selects `"Lupe"`, every other target
language selects the fallback `"Joanna"`; and every synthesis call made
by `synthesize_speech` uses exactly the selected voice. -/
theorem synthesize_speech_voice_mapping :
    selectVoice "es" = "Lupe" ∧
    (∀ t : String, t ≠ "es" → selectVoice t = "Joanna") ∧
    (∀ (o : Oracles) (text t : String),
      (synthesize_speech o text t).1.all
        (fun e => match e with
          | .pollyCall v _ _ => v = selectVoice t
          | _ => true) = true) := by
  refine ⟨rfl, fun t ht => ?_, fun o text t => ?_⟩
  · simp [selectVoice, ht]
  · cases h : o.polly (selectVoice t) "neural" text with
    | ok a => simp [synthesize_speech, h]
    | raise e => simp [synthesize_speech, h]
    | invalidParameterValue =>
      cases h2 : o.polly (selectVoice t) "standard" text <;>
        simp [synthesize_speech, h, h2]

/-- Claim C6, witness: the mapping evaluated at `"es"` and at the
non-`"es"` language `"fr"`, and the call-voice invariant on a concrete
world. -/
theorem synthesize_speech_voice_mapping_witness :
    selectVoice "es" = "Lupe" ∧ selectVoice "fr" = "Joanna" ∧
    (synthesize_speech baseOracles "bonjour" "fr").1.all
      (fun e => match e with
        | .pollyCall v _ _ => v = selectVoice "fr"
        | _ => true) = true :=
  ⟨synthesize_speech_voice_mapping.1,
   synthesize_speech_voice_mapping.2.1 "fr" (by decide),
   synthesize_speech_voice_mapping.2.2 baseOracles "bonjour" "fr"⟩

/-- Claim C7: if the first (neural-engine) synthesis call reports the
invalid-parameter condition, `synthesize_speech` makes exactly one more
call, with the standard engine, and then either returns the audio
bytes of that call or fails; a success or any other failure of the first call makes no
second call, and the failure propagates to the caller as an error. -/
theorem synthesize_speech_engine_fallback :
    ∀ (o : Oracles) (text t : String),
      (o.polly (selectVoice t) "neural" text = .invalidParameterValue →
        (synthesize_speech o text t).1.filter isPollyCall =
          [.pollyCall (selectVoice t) "neural" text,
           .pollyCall (selectVoice t) "standard" text] ∧
        ((∃ audio, o.polly (selectVoice t) "standard" text = .ok audio ∧
            (synthesize_speech o text t).2 = .ok audio) ∨
         (∃ e, (synthesize_speech o text t).2 = .error e))) ∧
      (∀ audio, o.polly (selectVoice t) "neural" text = .ok audio →
        (synthesize_speech o text t).2 = .ok audio ∧
        (synthesize_speech o text t).1.filter isPollyCall =
          [.pollyCall (selectVoice t) "neural" text]) ∧
      (∀ e, o.polly (selectVoice t) "neural" text = .raise e →
        (synthesize_speech o text t).2 = .error e ∧
        (synthesize_speech o text t).1.filter isPollyCall =
          [.pollyCall (selectVoice t) "neural" text]) := by
  intro o text t
  refine ⟨fun hinv => ?_, fun audio hok => ?_, fun e hraise => ?_⟩
  · cases hstd : o.polly (selectVoice t) "standard" text with
    | ok audio =>
      exact ⟨by simp [synthesize_speech, hinv, hstd, isPollyCall],
             .inl ⟨audio, rfl, by simp [synthesize_speech, hinv, hstd]⟩⟩
    | invalidParameterValue =>
      exact ⟨by simp [synthesize_speech, hinv, hstd, isPollyCall],
             .inr ⟨"InvalidParameterValueException", by simp [synthesize_speech, hinv, hstd]⟩⟩
    | raise e =>
      exact ⟨by simp [synthesize_speech, hinv, hstd, isPollyCall],
             .inr ⟨e, by simp [synthesize_speech, hinv, hstd]⟩⟩
  · exact ⟨by simp [synthesize_speech, hok], by simp [synthesize_speech, hok, isPollyCall]⟩
  · exact ⟨by simp [synthesize_speech, hraise], by simp [synthesize_speech, hraise, isPollyCall]⟩

/-- Claim C7, witness: a world whose neural call is rejected with the
invalid-parameter condition and whose standard call succeeds. -/
theorem synthesize_speech_engine_fallback_witness :
    (synthesize_speech
        { baseOracles with
            polly := fun _ engine _ =>
              if engine = "neural" then .invalidParameterValue else .ok "STDAUDIO" }
        "hola" "es").1.filter isPollyCall =
      [.pollyCall "Lupe" "neural" "hola", .pollyCall "Lupe" "standard" "hola"] ∧
    ((∃ audio,
        ({ baseOracles with
            polly := fun _ engine _ =>
              if engine = "neural" then .invalidParameterValue
              else .ok "STDAUDIO" } : Oracles).polly (selectVoice "es") "standard" "hola" =
          .ok audio ∧
        (synthesize_speech
            { baseOracles with
                polly := fun _ engine _ =>
                  if engine = "neural" then .invalidParameterValue else .ok "STDAUDIO" }
            "hola" "es").2 = .ok audio) ∨
     (∃ e,
        (synthesize_speech
            { baseOracles with
                polly := fun _ engine _ =>
                  if engine = "neural" then .invalidParameterValue else .ok "STDAUDIO" }
            "hola" "es").2 = .error e)) :=
  (synthesize_speech_engine_fallback
      { baseOracles with
          polly := fun _ engine _ =>
            if engine = "neural" then .invalidParameterValue else .ok "STDAUDIO" }
      "hola" "es").1 (by decide)

theorem pollLoop_first_terminal (q : Nat → QueryOutcome) (k : Nat)
    (vk : TranscriptionJobView)
    (hk : q k = .view vk) (hterm : isTerminal vk.status = true)
    (hpre : ∀ j, j < k → ∃ v, q j = .view v ∧ isTerminal v.status = false) :
    ∀ fuel i, i ≤ k → k - i < fuel →
      (pollLoop q fuel i).2 = .terminal k vk ∧
      (pollLoop q fuel i).1.filter isSleepEvent = List.replicate (k - i) (.sleep 30) ∧
      ((pollLoop q fuel i).1.filter isQueryCall).length = k - i + 1 ∧
      ∀ e ∈ (pollLoop q fuel i).1, isPollEvent e = true := by
  intro fuel
  induction fuel with
  | zero => intro i _ h; omega
  | succ f ih =>
    intro i hik hfuel
    rcases Nat.lt_or_ge i k with hlt | hge
    · obtain ⟨v, hq, hnt⟩ := hpre i hlt
      have hrec := ih (i + 1) (by omega) (by omega)
      have hrepl : k - i = (k - (i + 1)) + 1 := by omega
      refine ⟨?_, ?_, ?_, ?_⟩
      · simpa [pollLoop, hq, hnt] using hrec.1
      · rw [hrepl]
        simpa [pollLoop, hq, hnt, isSleepEvent, isQueryCall, List.replicate_succ]
          using hrec.2.1
      · have : k - i + 1 = (k - (i + 1) + 1) + 1 := by omega
        rw [this]
        simpa [pollLoop, hq, hnt, isSleepEvent, isQueryCall] using hrec.2.2.1
      · intro e he
        simp only [pollLoop, hq, hnt] at he
        simp only [Bool.false_eq_true, if_false, List.mem_cons] at he
        rcases he with rfl | rfl | rfl | he
        · rfl
        · rfl
        · rfl
        · exact hrec.2.2.2 e he
    · have hik' : i = k := by omega
      subst hik'
      refine ⟨?_, ?_, ?_, ?_⟩ <;>
        simp [pollLoop, hk, hterm, isSleepEvent, isQueryCall, isPollEvent]

theorem pollLoop_no_terminal (q : Nat → QueryOutcome)
    (h : ∀ i, ∃ v, q i = .view v ∧ isTerminal v.status = false) :
    ∀ fuel i, (pollLoop q fuel i).2 = .running := by
  intro fuel
  induction fuel with
  | zero => intro i; rfl
  | succ f ih =>
    intro i
    obtain ⟨v, hq, hnt⟩ := h i
    simpa [pollLoop, hq, hnt] using ih (i + 1)

theorem pollLoop_no_raise (q : Nat → QueryOutcome)
    (h : ∀ i e, q i ≠ .raise e) :
    ∀ fuel i e, (pollLoop q fuel i).2 ≠ .raised e := by
  intro fuel
  induction fuel with
  | zero => intro i e hcontra; cases hcontra
  | succ f ih =>
    intro i e
    cases hq : q i with
    | raise msg => exact absurd hq (h i msg)
    | view v =>
      by_cases hterm : isTerminal v.status = true
      · simp [pollLoop, hq, hterm]
      · have := ih (i + 1) e
        simp only [Bool.not_eq_true] at hterm
        simpa [pollLoop, hq, hterm] using this

theorem pollEvents_benign (evs : List Event)
    (h : ∀ e ∈ evs, isPollEvent e = true) :
    writtenKeys evs = [] ∧
    evs.any isTranslateCall = false ∧
    evs.any isPollyCall = false ∧
    evs.any isStartJobCall = false := by
  refine ⟨?_, ?_, ?_, ?_⟩
  · rw [writtenKeys, List.filterMap_eq_nil_iff]
    intro e he
    have := h e he
    cases e <;> simp_all [isPollEvent, writeKeyOf]
  · rw [List.any_eq_false]
    intro e he
    have := h e he
    cases e <;> simp_all [isPollEvent, isTranslateCall]
  · rw [List.any_eq_false]
    intro e he
    have := h e he
    cases e <;> simp_all [isPollEvent, isPollyCall]
  · rw [List.any_eq_false]
    intro e he
    have := h e he
    cases e <;> simp_all [isPollEvent, isStartJobCall]

theorem start_transcription_job_benign (o : Oracles) (j u : String) :
    writtenKeys (start_transcription_job o j u) = [] ∧
    (start_transcription_job o j u).any isTranslateCall = false ∧
    (start_transcription_job o j u).any isPollyCall = false ∧
    (start_transcription_job o j u).any isQueryCall = false := by
  unfold start_transcription_job
  cases o.startJob j u <;>
    simp [writtenKeys, writeKeyOf, isTranslateCall, isPollyCall, isQueryCall]

theorem digitChar_fin10_isDigit : ∀ m : Fin 10, (Nat.digitChar m.val).isDigit = true := by
  decide

theorem toDigitsCore_all_digits (fuel : Nat) :
    ∀ (n : Nat) (acc : List Char), acc.all Char.isDigit = true →
      (Nat.toDigitsCore 10 fuel n acc).all Char.isDigit = true := by
  induction fuel with
  | zero => intro n acc h; simpa [Nat.toDigitsCore] using h
  | succ f ih =>
    intro n acc h
    have hd : (Nat.digitChar (n % 10)).isDigit = true :=
      digitChar_fin10_isDigit ⟨n % 10, Nat.mod_lt _ (by omega)⟩
    by_cases h0 : n / 10 = 0
    · simp [Nat.toDigitsCore, h0, hd, h]
    · simp only [Nat.toDigitsCore, h0, if_false]
      exact ih _ _ (by simp [hd, h])

theorem toDigitsCore_ne_nil (fuel : Nat) :
    ∀ (n : Nat) (acc : List Char), acc ≠ [] → Nat.toDigitsCore 10 fuel n acc ≠ [] := by
  induction fuel with
  | zero => intro n acc h; simpa [Nat.toDigitsCore] using h
  | succ f ih =>
    intro n acc h
    by_cases h0 : n / 10 = 0
    · simp [Nat.toDigitsCore, h0]
    · simp only [Nat.toDigitsCore, h0, if_false]
      exact ih _ _ (by simp)

theorem repr_data_digits (n : Nat) :
    (Nat.repr n).data ≠ [] ∧ (Nat.repr n).data.all Char.isDigit = true := by
  have hdata : (Nat.repr n).data = Nat.toDigits 10 n := rfl
  rw [hdata]
  constructor
  · rw [Nat.toDigits]
    by_cases h0 : n / 10 = 0
    · simp [Nat.toDigitsCore, h0]
    · simp only [Nat.toDigitsCore, h0, if_false]
      exact toDigitsCore_ne_nil _ _ _ (by simp)
  · exact toDigitsCore_all_digits _ _ _ rfl

/-- Claim C3: with the job status observed `COMPLETED` and the transcript
URI resolving to a document whose `results.transcripts` list starts with
`{"transcript": text}`, `get_transcription_result` returns exactly `text`
— only the first alternative is used, whatever follows it. -/
theorem get_transcription_result_first_alternative
    (o : Oracles) (uri text : String) (rest : List TranscriptAlt)
    (fr : Option String) (fuel : Nat)
    (hq : o.query 0 = .view ⟨.COMPLETED, fr, some uri⟩)
    (hf : o.fetch uri = .ok ⟨⟨⟨text⟩ :: rest⟩⟩)
    (hfuel : 1 ≤ fuel) :
    (get_transcription_result o fuel).2 = .returned (some text) := by
  obtain ⟨m, rfl⟩ : ∃ m, fuel = m + 1 := ⟨fuel - 1, by omega⟩
  simp [get_transcription_result, pollLoop, hq, hf, isTerminal]

/-- Claim C3, witness: the specified scenario
`{"results":{"transcripts":[{"transcript":"hello world"}]}}` yields
exactly `"hello world"`. -/
theorem get_transcription_result_first_alternative_witness :
    (get_transcription_result baseOracles 1).2 = .returned (some "hello world") :=
  get_transcription_result_first_alternative baseOracles "https://transcript.json"
    "hello world" [] none 1 rfl rfl (by decide)

/-- Claim C5: if the storage upload of the input file reports failure
(`upload_to_s3` returns `False` after a `ClientError`), `process_file`
submits no transcription job, performs no status query, writes nothing,
logs the upload error and returns without raising, and the batch
continues with the remaining files. -/
theorem upload_failure_aborts_item
    (cfg : Config) (o : Oracles) (fuel : Nat) (file_path e : String)
    (os : String → Oracles) (rest : List String)
    (hup : o.upload file_path (cfg.environment ++ "/audio_inputs/" ++ basename file_path) =
      .clientError e)
    (hos : os file_path = o) :
    (process_file cfg o fuel file_path).2 = .done ∧
    (process_file cfg o fuel file_path).1 = [.logError ("S3 Upload Error: " ++ e)] ∧
    (process_file cfg o fuel file_path).1.any isStartJobCall = false ∧
    (process_file cfg o fuel file_path).1.any isQueryCall = false ∧
    writtenKeys (process_file cfg o fuel file_path).1 = [] ∧
    (runBatch cfg os fuel (file_path :: rest)).2 = (runBatch cfg os fuel rest).2 := by
  have hpf : process_file cfg o fuel file_path =
      ([.logError ("S3 Upload Error: " ++ e)], .done) := by
    simp [process_file, upload_to_s3, hup]
  refine ⟨by rw [hpf], by rw [hpf], by rw [hpf]; rfl, by rw [hpf]; rfl,
    by rw [hpf]; rfl, ?_⟩
  rw [runBatch, hos, hpf]

/-- Claim C5, witness: a concrete world whose input upload fails with a
`ClientError`. -/
theorem upload_failure_aborts_item_witness :
    (process_file ⟨"my-bucket", "beta"⟩
        { baseOracles with upload := fun _ _ => .clientError "AccessDenied" }
        1 "audio_inputs/greeting.mp3").2 = .done ∧
    (process_file ⟨"my-bucket", "beta"⟩
        { baseOracles with upload := fun _ _ => .clientError "AccessDenied" }
        1 "audio_inputs/greeting.mp3").1 =
      [.logError ("S3 Upload Error: " ++ "AccessDenied")] ∧
    (process_file ⟨"my-bucket", "beta"⟩
        { baseOracles with upload := fun _ _ => .clientError "AccessDenied" }
        1 "audio_inputs/greeting.mp3").1.any isStartJobCall = false ∧
    (process_file ⟨"my-bucket", "beta"⟩
        { baseOracles with upload := fun _ _ => .clientError "AccessDenied" }
        1 "audio_inputs/greeting.mp3").1.any isQueryCall = false ∧
    writtenKeys (process_file ⟨"my-bucket", "beta"⟩
        { baseOracles with upload := fun _ _ => .clientError "AccessDenied" }
        1 "audio_inputs/greeting.mp3").1 = [] ∧
    (runBatch ⟨"my-bucket", "beta"⟩
        (fun _ => { baseOracles with upload := fun _ _ => .clientError "AccessDenied" })
        1 ("audio_inputs/greeting.mp3" :: ["audio_inputs/other.mp3"])).2 =
      (runBatch ⟨"my-bucket", "beta"⟩
        (fun _ => { baseOracles with upload := fun _ _ => .clientError "AccessDenied" })
        1 ["audio_inputs/other.mp3"]).2 :=
  upload_failure_aborts_item ⟨"my-bucket", "beta"⟩
    { baseOracles with upload := fun _ _ => .clientError "AccessDenied" }
    1 "audio_inputs/greeting.mp3" "AccessDenied"
    (fun _ => { baseOracles with upload := fun _ _ => .clientError "AccessDenied" })
    ["audio_inputs/other.mp3"] (by decide) rfl

/-- Claim C9: the poll loop of `get_transcription_result` queries the job
status; while the status is neither `COMPLETED` nor `FAILED` it sleeps a
fixed 30 seconds and re-queries, with no retry ceiling.  If the `k`-th
observation is the first terminal one, the loop stops exactly there
(whenever it is given more than `k` steps of fuel), having slept 30
seconds exactly `k` times and queried exactly `k + 1` times; if no
observation is ever terminal, every amount of fuel leaves
`get_transcription_result` still polling. -/
theorem polling_loop_first_terminal_or_forever :
    (∀ (o : Oracles) (k : Nat) (vk : TranscriptionJobView),
      o.query k = .view vk → isTerminal vk.status = true →
      (∀ j, j < k → ∃ v, o.query j = .view v ∧ isTerminal v.status = false) →
      ∀ fuel, k < fuel →
        (pollLoop o.query fuel 0).2 = .terminal k vk ∧
        (pollLoop o.query fuel 0).1.filter isSleepEvent = List.replicate k (.sleep 30) ∧
        ((pollLoop o.query fuel 0).1.filter isQueryCall).length = k + 1) ∧
    (∀ (o : Oracles),
      (∀ i, ∃ v, o.query i = .view v ∧ isTerminal v.status = false) →
      ∀ fuel, (get_transcription_result o fuel).2 = .stillPolling) := by
  constructor
  · intro o k vk hk hterm hpre fuel hfuel
    have h := pollLoop_first_terminal o.query k vk hk hterm hpre fuel 0
      (Nat.zero_le k) (by omega)
    exact ⟨h.1, by simpa using h.2.1, by simpa using h.2.2.1⟩
  · intro o h fuel
    have hrun := pollLoop_no_terminal o.query h fuel 0
    rcases hP : pollLoop o.query fuel 0 with ⟨evs, res⟩
    rw [hP] at hrun
    simp only at hrun
    subst hrun
    simp [get_transcription_result, hP]

/-- Claim C9, witness: a job that is in progress twice and completes at
the third query stops exactly there with two 30-second sleeps and three
queries; a job that never leaves `IN_PROGRESS` is still polling at fuel
7. -/
theorem polling_loop_first_terminal_or_forever_witness :
    ((pollLoop ({ baseOracles with
        query := fun i => if i < 2 then .view ⟨.IN_PROGRESS, none, none⟩
          else .view ⟨.COMPLETED, none, some "https://u"⟩ } : Oracles).query 5 0).2 =
      .terminal 2 ⟨.COMPLETED, none, some "https://u"⟩ ∧
     (pollLoop ({ baseOracles with
        query := fun i => if i < 2 then .view ⟨.IN_PROGRESS, none, none⟩
          else .view ⟨.COMPLETED, none, some "https://u"⟩ } : Oracles).query 5 0).1.filter
        isSleepEvent = List.replicate 2 (.sleep 30) ∧
     ((pollLoop ({ baseOracles with
        query := fun i => if i < 2 then .view ⟨.IN_PROGRESS, none, none⟩
          else .view ⟨.COMPLETED, none, some "https://u"⟩ } : Oracles).query 5 0).1.filter
        isQueryCall).length = 2 + 1) ∧
    (get_transcription_result
        { baseOracles with query := fun _ => .view ⟨.IN_PROGRESS, none, none⟩ } 7).2 =
      .stillPolling :=
  ⟨polling_loop_first_terminal_or_forever.1
      { baseOracles with
        query := fun i => if i < 2 then .view ⟨.IN_PROGRESS, none, none⟩
          else .view ⟨.COMPLETED, none, some "https://u"⟩ }
      2 ⟨.COMPLETED, none, some "https://u"⟩ (by decide) (by decide)
      (by
        intro j hj
        exact ⟨⟨.IN_PROGRESS, none, none⟩, by simp [hj], by decide⟩)
      5 (by decide),
   polling_loop_first_terminal_or_forever.2
      { baseOracles with query := fun _ => .view ⟨.IN_PROGRESS, none, none⟩ }
      (fun i => ⟨⟨.IN_PROGRESS, none, none⟩, rfl, by decide⟩) 7⟩

/-- Claim C4: when the first terminal status observed for the job is
`FAILED`, `get_transcription_result` logs the provided failure reason (or
the placeholder `"Unknown error"` when absent) and returns an absent
result, and `process_file` then makes no translation call, no synthesis
call, and writes nothing beyond the already-uploaded input for that item,
returning normally. -/
theorem transcription_failed_aborts_item
    (cfg : Config) (o : Oracles) (file_path : String) (k fuel : Nat)
    (reason uriOpt : Option String)
    (hup : o.upload file_path (cfg.environment ++ "/audio_inputs/" ++ basename file_path) = .ok)
    (hk : o.query k = .view ⟨.FAILED, reason, uriOpt⟩)
    (hpre : ∀ j, j < k → ∃ v, o.query j = .view v ∧ isTerminal v.status = false)
    (hfuel : k < fuel) :
    (get_transcription_result o fuel).2 = .returned none ∧
    Event.logError ("Transcription job failed: " ++ reason.getD "Unknown error") ∈
      (process_file cfg o fuel file_path).1 ∧
    (process_file cfg o fuel file_path).2 = .done ∧
    (process_file cfg o fuel file_path).1.any isTranslateCall = false ∧
    (process_file cfg o fuel file_path).1.any isPollyCall = false ∧
    writtenKeys (process_file cfg o fuel file_path).1 =
      [cfg.environment ++ "/audio_inputs/" ++ basename file_path] := by
  have hP := pollLoop_first_terminal o.query k ⟨.FAILED, reason, uriOpt⟩ hk rfl hpre
    fuel 0 (Nat.zero_le k) (by omega)
  rcases hPL : pollLoop o.query fuel 0 with ⟨pevs, pres⟩
  rw [hPL] at hP
  obtain ⟨hres, _, _, hbenign⟩ := hP
  simp only at hres hbenign
  subst hres
  have hgtr : get_transcription_result o fuel =
      (pevs ++ [.logError ("Transcription job failed: " ++ reason.getD "Unknown error")],
       .returned none) := by
    simp [get_transcription_result, hPL]
  have hpf : process_file cfg o fuel file_path =
      (([.uploadFile file_path (cfg.environment ++ "/audio_inputs/" ++ basename file_path),
         .logInfo ("Uploaded " ++ file_path ++ " to s3://" ++ cfg.bucket ++ "/" ++
           (cfg.environment ++ "/audio_inputs/" ++ basename file_path))] ++
        start_transcription_job o
          (transcribeJobName (splitextStem (basename file_path)) o.time)
          ("s3://" ++ cfg.bucket ++ "/" ++
            (cfg.environment ++ "/audio_inputs/" ++ basename file_path)) ++
        (pevs ++ [.logError ("Transcription job failed: " ++ reason.getD "Unknown error")])) ++
       [.logError "Processing failed at transcription stage."], .done) := by
    simp [process_file, upload_to_s3, hup, hgtr, pyStrFalsy]
  obtain ⟨hw, ht, hp, hs⟩ := pollEvents_benign pevs hbenign
  obtain ⟨hw2, ht2, hp2, _⟩ := start_transcription_job_benign o
    (transcribeJobName (splitextStem (basename file_path)) o.time)
    ("s3://" ++ cfg.bucket ++ "/" ++ (cfg.environment ++ "/audio_inputs/" ++ basename file_path))
  refine ⟨by rw [hgtr], ?_, by rw [hpf], ?_, ?_, ?_⟩
  · rw [hpf]
    simp
  · rw [hpf]
    simp only [List.any_append, Bool.or_eq_false_iff]
    exact ⟨⟨⟨by simp [isTranslateCall], ht2⟩, ⟨ht, by simp [isTranslateCall]⟩⟩,
           by simp [isTranslateCall]⟩
  · rw [hpf]
    simp only [List.any_append, Bool.or_eq_false_iff]
    exact ⟨⟨⟨by simp [isPollyCall], hp2⟩, ⟨hp, by simp [isPollyCall]⟩⟩,
           by simp [isPollyCall]⟩
  · rw [hpf]
    simp only [writtenKeys, List.filterMap_append]
    rw [writtenKeys] at hw hw2
    rw [hw, hw2]
    simp [writeKeyOf]

/-- Claim C4, witness: a job that fails immediately with reason
`"Bad media format"`. -/
theorem transcription_failed_aborts_item_witness :
    (get_transcription_result
        { baseOracles with query := fun _ => .view ⟨.FAILED, some "Bad media format", none⟩ }
        1).2 = .returned none ∧
    Event.logError ("Transcription job failed: " ++ (some "Bad media format").getD "Unknown error") ∈
      (process_file ⟨"my-bucket", "beta"⟩
        { baseOracles with query := fun _ => .view ⟨.FAILED, some "Bad media format", none⟩ }
        1 "audio_inputs/greeting.mp3").1 ∧
    (process_file ⟨"my-bucket", "beta"⟩
        { baseOracles with query := fun _ => .view ⟨.FAILED, some "Bad media format", none⟩ }
        1 "audio_inputs/greeting.mp3").2 = .done ∧
    (process_file ⟨"my-bucket", "beta"⟩
        { baseOracles with query := fun _ => .view ⟨.FAILED, some "Bad media format", none⟩ }
        1 "audio_inputs/greeting.mp3").1.any isTranslateCall = false ∧
    (process_file ⟨"my-bucket", "beta"⟩
        { baseOracles with query := fun _ => .view ⟨.FAILED, some "Bad media format", none⟩ }
        1 "audio_inputs/greeting.mp3").1.any isPollyCall = false ∧
    writtenKeys (process_file ⟨"my-bucket", "beta"⟩
        { baseOracles with query := fun _ => .view ⟨.FAILED, some "Bad media format", none⟩ }
        1 "audio_inputs/greeting.mp3").1 =
      [(⟨"my-bucket", "beta"⟩ : Config).environment ++ "/audio_inputs/" ++
        basename "audio_inputs/greeting.mp3"] :=
  transcription_failed_aborts_item ⟨"my-bucket", "beta"⟩
    { baseOracles with query := fun _ => .view ⟨.FAILED, some "Bad media format", none⟩ }
    "audio_inputs/greeting.mp3" 0 1 (some "Bad media format") none
    rfl rfl (fun j hj => absurd hj (Nat.not_lt_zero j)) (by decide)

/-- Claim C10: if `get_transcription_result` returns the empty string (a
`COMPLETED` job whose first transcript field is `""`), `process_file`
treats the item exactly as a transcription failure: the Python falsy guard
cannot distinguish `""` from an absent transcript, the stage-failure line
is logged, no translation call and no synthesis call are made, nothing
beyond the already-uploaded input is written, and the function returns
normally. -/
theorem empty_transcript_treated_as_failure
    (cfg : Config) (o : Oracles) (file_path uri : String) (k fuel : Nat)
    (fr : Option String) (rest : List TranscriptAlt)
    (hup : o.upload file_path (cfg.environment ++ "/audio_inputs/" ++ basename file_path) = .ok)
    (hk : o.query k = .view ⟨.COMPLETED, fr, some uri⟩)
    (hpre : ∀ j, j < k → ∃ v, o.query j = .view v ∧ isTerminal v.status = false)
    (hf : o.fetch uri = .ok ⟨⟨⟨""⟩ :: rest⟩⟩)
    (hfuel : k < fuel) :
    (get_transcription_result o fuel).2 = .returned (some "") ∧
    pyStrFalsy (some "") = pyStrFalsy none ∧
    Event.logError "Processing failed at transcription stage." ∈
      (process_file cfg o fuel file_path).1 ∧
    (process_file cfg o fuel file_path).2 = .done ∧
    (process_file cfg o fuel file_path).1.any isTranslateCall = false ∧
    (process_file cfg o fuel file_path).1.any isPollyCall = false ∧
    writtenKeys (process_file cfg o fuel file_path).1 =
      [cfg.environment ++ "/audio_inputs/" ++ basename file_path] := by
  have hP := pollLoop_first_terminal o.query k ⟨.COMPLETED, fr, some uri⟩ hk rfl hpre
    fuel 0 (Nat.zero_le k) (by omega)
  rcases hPL : pollLoop o.query fuel 0 with ⟨pevs, pres⟩
  rw [hPL] at hP
  obtain ⟨hres, _, _, hbenign⟩ := hP
  simp only at hres hbenign
  subst hres
  have hgtr : get_transcription_result o fuel = (pevs, .returned (some "")) := by
    simp [get_transcription_result, hPL, hf]
  have hpf : process_file cfg o fuel file_path =
      (([.uploadFile file_path (cfg.environment ++ "/audio_inputs/" ++ basename file_path),
         .logInfo ("Uploaded " ++ file_path ++ " to s3://" ++ cfg.bucket ++ "/" ++
           (cfg.environment ++ "/audio_inputs/" ++ basename file_path))] ++
        start_transcription_job o
          (transcribeJobName (splitextStem (basename file_path)) o.time)
          ("s3://" ++ cfg.bucket ++ "/" ++
            (cfg.environment ++ "/audio_inputs/" ++ basename file_path)) ++
        pevs) ++
       [.logError "Processing failed at transcription stage."], .done) := by
    simp [process_file, upload_to_s3, hup, hgtr, pyStrFalsy]
  obtain ⟨hw, ht, hp, hs⟩ := pollEvents_benign pevs hbenign
  obtain ⟨hw2, ht2, hp2, _⟩ := start_transcription_job_benign o
    (transcribeJobName (splitextStem (basename file_path)) o.time)
    ("s3://" ++ cfg.bucket ++ "/" ++ (cfg.environment ++ "/audio_inputs/" ++ basename file_path))
  refine ⟨by rw [hgtr], rfl, ?_, by rw [hpf], ?_, ?_, ?_⟩
  · rw [hpf]
    simp
  · rw [hpf]
    simp only [List.any_append, Bool.or_eq_false_iff]
    exact ⟨⟨⟨by simp [isTranslateCall], ht2⟩, ht⟩, by simp [isTranslateCall]⟩
  · rw [hpf]
    simp only [List.any_append, Bool.or_eq_false_iff]
    exact ⟨⟨⟨by simp [isPollyCall], hp2⟩, hp⟩, by simp [isPollyCall]⟩
  · rw [hpf]
    simp only [writtenKeys, List.filterMap_append]
    rw [writtenKeys] at hw hw2
    rw [hw, hw2]
    simp [writeKeyOf]

/-- Claim C10, witness: a completed job whose transcript JSON holds the
empty string. -/
theorem empty_transcript_treated_as_failure_witness :
    (get_transcription_result
        { baseOracles with fetch := fun _ => .ok ⟨⟨[⟨""⟩]⟩⟩ } 1).2 = .returned (some "") ∧
    pyStrFalsy (some "") = pyStrFalsy none ∧
    Event.logError "Processing failed at transcription stage." ∈
      (process_file ⟨"my-bucket", "beta"⟩
        { baseOracles with fetch := fun _ => .ok ⟨⟨[⟨""⟩]⟩⟩ }
        1 "audio_inputs/greeting.mp3").1 ∧
    (process_file ⟨"my-bucket", "beta"⟩
        { baseOracles with fetch := fun _ => .ok ⟨⟨[⟨""⟩]⟩⟩ }
        1 "audio_inputs/greeting.mp3").2 = .done ∧
    (process_file ⟨"my-bucket", "beta"⟩
        { baseOracles with fetch := fun _ => .ok ⟨⟨[⟨""⟩]⟩⟩ }
        1 "audio_inputs/greeting.mp3").1.any isTranslateCall = false ∧
    (process_file ⟨"my-bucket", "beta"⟩
        { baseOracles with fetch := fun _ => .ok ⟨⟨[⟨""⟩]⟩⟩ }
        1 "audio_inputs/greeting.mp3").1.any isPollyCall = false ∧
    writtenKeys (process_file ⟨"my-bucket", "beta"⟩
        { baseOracles with fetch := fun _ => .ok ⟨⟨[⟨""⟩]⟩⟩ }
        1 "audio_inputs/greeting.mp3").1 =
      [(⟨"my-bucket", "beta"⟩ : Config).environment ++ "/audio_inputs/" ++
        basename "audio_inputs/greeting.mp3"] :=
  empty_transcript_treated_as_failure ⟨"my-bucket", "beta"⟩
    { baseOracles with fetch := fun _ => .ok ⟨⟨[⟨""⟩]⟩⟩ }
    "audio_inputs/greeting.mp3" "https://transcript.json" 0 1 none []
    rfl rfl (fun j hj => absurd hj (Nat.not_lt_zero j)) rfl (by decide)

/-- Claim C1: end-to-end scenario for one input `greeting.mp3`, bucket
`my-bucket`, environment `beta`, target language `es`: processing the
item writes exactly the keys `beta/audio_inputs/greeting.mp3`,
`beta/transcripts/greeting.txt`, `beta/translations/greeting_es.txt` and
`beta/audio-outputs/greeting_es.mp3`, in that order, returns normally,
submits the generated job name, and that job name matches
`job-greeting-\d+` for every timestamp. -/
theorem greeting_end_to_end (ts : Nat) :
    writtenKeys (process_file ⟨"my-bucket", "beta"⟩ (greetingOracles ts) 1
        "audio_inputs/greeting.mp3").1 =
      ["beta/audio_inputs/greeting.mp3", "beta/transcripts/greeting.txt",
       "beta/translations/greeting_es.txt", "beta/audio-outputs/greeting_es.mp3"] ∧
    (process_file ⟨"my-bucket", "beta"⟩ (greetingOracles ts) 1
        "audio_inputs/greeting.mp3").2 = .done ∧
    Event.startJobCall
        (transcribeJobName (splitextStem (basename "audio_inputs/greeting.mp3")) ts)
        "s3://my-bucket/beta/audio_inputs/greeting.mp3" ∈
      (process_file ⟨"my-bucket", "beta"⟩ (greetingOracles ts) 1
        "audio_inputs/greeting.mp3").1 ∧
    MatchesJobGreeting
      (transcribeJobName (splitextStem (basename "audio_inputs/greeting.mp3")) ts) := by
  refine ⟨rfl, rfl, .tail _ (.tail _ (.head _)), ?_⟩
  obtain ⟨h1, h2⟩ := repr_data_digits ts
  refine ⟨(Nat.repr ts).data, h1, h2, ?_⟩
  rfl

theorem gtr_no_raise (o : Oracles) (fuel : Nat)
    (hq : ∀ i e, o.query i ≠ .raise e) :
    ∀ e, (get_transcription_result o fuel).2 ≠ .raised e := by
  intro e
  rcases hP : pollLoop o.query fuel 0 with ⟨pevs, pres⟩
  cases pres with
  | raised msg =>
    have := pollLoop_no_raise o.query hq fuel 0 msg
    rw [hP] at this
    simp at this
  | running => simp [get_transcription_result, hP]
  | terminal i v =>
    by_cases hst : v.status = .FAILED
    · simp [get_transcription_result, hP, hst]
    · cases huri : v.transcriptFileUri with
      | none => simp [get_transcription_result, hP, hst, huri]
      | some uri =>
        cases hf : o.fetch uri with
        | error e2 => simp [get_transcription_result, hP, hst, huri, hf]
        | ok doc =>
          cases hh : doc.results.transcripts.head? <;>
            simp [get_transcription_result, hP, hst, huri, hf, hh]

theorem upload_results_no_raise (cfg : Config) (o : Oracles)
    (fn b t tr au : String)
    (hput : ∀ k e, o.put k ≠ .otherError e) :
    ∀ e, (upload_results cfg o fn b t tr au).2 ≠ .raisedOther e := by
  intro e
  cases h1 : o.put (cfg.environment ++ "/transcripts/" ++ b ++ ".txt") with
  | otherError e1 => exact absurd h1 (hput _ _)
  | clientError e1 => simp [upload_results, h1]
  | ok =>
    cases h2 : o.put (cfg.environment ++ "/translations/" ++ b ++ "_" ++ TARGET_LANGUAGE ++ ".txt") with
    | otherError e2 => exact absurd h2 (hput _ _)
    | clientError e2 => simp [upload_results, h1, h2]
    | ok =>
      cases h3 : o.put (cfg.environment ++ "/audio-outputs/" ++ b ++ "_" ++ TARGET_LANGUAGE ++ ".mp3") with
      | otherError e3 => exact absurd h3 (hput _ _)
      | clientError e3 => simp [upload_results, h1, h2, h3]
      | ok => simp [upload_results, h1, h2, h3]

theorem process_file_no_raise (cfg : Config) (o : Oracles) (fuel : Nat) (p : String)
    (hup : ∀ a b e, o.upload a b ≠ .otherError e)
    (hq : ∀ i e, o.query i ≠ .raise e)
    (hput : ∀ k e, o.put k ≠ .otherError e) :
    ∀ e, (process_file cfg o fuel p).2 ≠ .raised e := by
  intro e
  cases hu : o.upload p (cfg.environment ++ "/audio_inputs/" ++ basename p) with
  | otherError eu => exact absurd hu (hup _ _ _)
  | clientError eu => simp [process_file, upload_to_s3, hu]
  | ok =>
    rcases hg : get_transcription_result o fuel with ⟨gevs, gres⟩
    cases gres with
    | raised e2 =>
      have := gtr_no_raise o fuel hq e2
      rw [hg] at this
      simp at this
    | stillPolling => simp [process_file, upload_to_s3, hu, hg]
    | returned r =>
      by_cases hfal : pyStrFalsy r = true
      · simp [process_file, upload_to_s3, hu, hg, hfal]
      · cases htr : o.translate (r.getD "") with
        | raise e3 =>
          simp [process_file, upload_to_s3, translate_text, hu, hg, hfal, htr]
        | ok t =>
          rcases hsy : synthesize_speech o t TARGET_LANGUAGE with ⟨sevs, sres⟩
          cases sres with
          | error e4 =>
            simp [process_file, upload_to_s3, translate_text, hu, hg, hfal, htr, hsy]
          | ok audio =>
            rcases hur : upload_results cfg o (basename p) (splitextStem (basename p))
                (r.getD "") t audio with ⟨uevs, ures⟩
            cases ures with
            | raisedOther e5 =>
              have := upload_results_no_raise cfg o (basename p) (splitextStem (basename p))
                (r.getD "") t audio hput e5
              rw [hur] at this
              simp at this
            | ok =>
              simp [process_file, upload_to_s3, translate_text, hu, hg, hfal, htr, hsy, hur]
            | caught e5 =>
              simp [process_file, upload_to_s3, translate_text, hu, hg, hfal, htr, hsy, hur]

/-- Claim C8, counterexample: a job submission that fails (caught and
logged) followed by a status query that raises — as the service does not
know the job — escapes `process_file` uncaught and crashes the whole
batch before the second item. -/
theorem uncaught_query_error_crashes_batch :
    (process_file ⟨"my-bucket", "beta"⟩ crashOracles 1 "audio_inputs/a.mp3").2 =
      .raised "BadRequestException: job not found" ∧
    (runBatch ⟨"my-bucket", "beta"⟩ (fun _ => crashOracles) 1
        ["audio_inputs/a.mp3", "audio_inputs/b.mp3"]).2 =
      .crashed "BadRequestException: job not found" := by
  decide

/-- Claim C8 (amended): after the startup configuration check, failures
surfaced to the pipeline as upload `ClientError`s, transcription-stage
failures, translate/synthesize exceptions, and `ClientError`s during the
final uploads are all caught and logged and the batch continues; but an
exception raised by the job-status query of the polling loop (e.g. when
polling a job whose submission failed), or a non-`ClientError` exception
from the input upload or the final puts, propagates uncaught and crashes
the run.  Under worlds that produce none of those three uncaught shapes,
no item ever raises and the batch never crashes. -/
theorem no_crash_when_uncaught_shapes_absent (cfg : Config) (os : String → Oracles)
    (fuel : Nat) :
    ∀ ps : List String,
      (∀ p ∈ ps, ∀ a b e, (os p).upload a b ≠ .otherError e) →
      (∀ p ∈ ps, ∀ i e, (os p).query i ≠ .raise e) →
      (∀ p ∈ ps, ∀ k e, (os p).put k ≠ .otherError e) →
      (∀ p ∈ ps, ∀ e, (process_file cfg (os p) fuel p).2 ≠ .raised e) ∧
      (∀ e, (runBatch cfg os fuel ps).2 ≠ .crashed e) := by
  intro ps
  induction ps with
  | nil =>
    intro _ _ _
    exact ⟨fun p hp => absurd hp (List.not_mem_nil p), fun e => by simp [runBatch]⟩
  | cons p ps ih =>
    intro hup hq hput
    have hpf : ∀ e, (process_file cfg (os p) fuel p).2 ≠ .raised e :=
      process_file_no_raise cfg (os p) fuel p
        (hup p (List.mem_cons_self p ps))
        (hq p (List.mem_cons_self p ps))
        (hput p (List.mem_cons_self p ps))
    have htail := ih
      (fun q hq2 => hup q (List.mem_cons_of_mem p hq2))
      (fun q hq2 => hq q (List.mem_cons_of_mem p hq2))
      (fun q hq2 => hput q (List.mem_cons_of_mem p hq2))
    refine ⟨?_, ?_⟩
    · intro q hq2 e
      rcases List.mem_cons.mp hq2 with rfl | hq3
      · exact hpf e
      · exact htail.1 q hq3 e
    · intro e
      rcases hP : process_file cfg (os p) fuel p with ⟨evs, res⟩
      cases res with
      | raised e2 =>
        have := hpf e2
        rw [hP] at this
        simp at this
      | stillPolling => simp [runBatch, hP]
      | done =>
        have := htail.2 e
        simp [runBatch, hP]
        rcases hR : runBatch cfg os fuel ps with ⟨bevs, bres⟩
        rw [hR] at this
        simpa [hR] using this

/-- Claim C8, witness: the amended no-crash theorem instantiated on an
all-benign world for a two-item batch. -/
theorem no_crash_when_uncaught_shapes_absent_witness :
    (∀ p ∈ ["audio_inputs/a.mp3", "audio_inputs/b.mp3"], ∀ e,
      (process_file ⟨"my-bucket", "beta"⟩ ((fun _ => baseOracles) p) 1 p).2 ≠ .raised e) ∧
    (∀ e, (runBatch ⟨"my-bucket", "beta"⟩ (fun _ => baseOracles) 1
        ["audio_inputs/a.mp3", "audio_inputs/b.mp3"]).2 ≠ .crashed e) :=
  no_crash_when_uncaught_shapes_absent ⟨"my-bucket", "beta"⟩ (fun _ => baseOracles) 1
    ["audio_inputs/a.mp3", "audio_inputs/b.mp3"]
    (fun _ _ _ _ _ h => UploadOutcome.noConfusion h)
    (fun _ _ _ _ h => QueryOutcome.noConfusion h)
    (fun _ _ _ _ h => PutOutcome.noConfusion h)

end ProcessAudio
